import Mathlib

set_option autoImplicit false

/-!
Verification of the oslo.messaging OpenTelemetry instrumentation bridge
(`opentelemetry/instrumentation/oslomessaging/__init__.py`).

The embedding models the two wrappers produced by `OsloMessagingInstrumentor`:
the client-side wrapper built by `_wrap_client_method` together with the
`_inject_trace_context` helper, and the server-side wrapper built by
`_wrap_server_process_incoming`, as well as the instrument/uninstrument
state transitions on the patched classes.

Python exceptions are modelled as values (`PyErr`); fallible steps return
`Except PyErr`.  Python dicts appearing as call contexts are modelled as
association lists over `String` keys, with `setKey`/`getKey`/`hasKey`
mirroring item assignment, subscription and the `in` operator.  The
propagator (`opentelemetry.propagate.inject` / `extract`) and the wrapped
transport operations are external collaborators and enter the model as
function parameters; span bookkeeping records the explicit span API calls
made by the wrapper bodies.
-/

namespace OsloMessaging

/-- A Python exception value: class name plus message.  Re-raising
preserves the value; `except (TypeError, ValueError)` clauses test the
`name` field. -/
structure PyErr where
  name : String
  msg : String
deriving DecidableEq, Repr

/-- A value stored in a call-context dict: either an ordinary (string)
entry or the opaque trace carrier produced by the propagator.  `γ` is the
carrier type. -/
inductive CVal (γ : Type) where
  | str (s : String)
  | carrier (c : γ)
deriving DecidableEq, Repr

/-- Python dict subscription `d[k]` (as an `Option`, `none` for a missing
key). -/
def getKey {α : Type} : List (String × α) → String → Option α
  | [], _ => none
  | p :: t, k => if p.1 = k then some p.2 else getKey t k

/-- Python `k in d`. -/
def hasKey {α : Type} : List (String × α) → String → Bool
  | [], _ => false
  | p :: t, k => if p.1 = k then true else hasKey t k

/-- Python dict item assignment `d[k] = v`: replaces the value at an
existing key, otherwise appends the new entry at the end (insertion
order). -/
def setKey {α : Type} : List (String × α) → String → α → List (String × α)
  | [], k, v => [(k, v)]
  | p :: t, k, v => if p.1 = k then (k, v) :: t else p :: setKey t k v

theorem getKey_setKey {α : Type} (l : List (String × α)) (k : String) (v : α) :
    getKey (setKey l k v) k = some v := by
  induction l with
  | nil => simp [setKey, getKey]
  | cons p t ih =>
    by_cases h : p.1 = k
    · simp [setKey, getKey, h]
    · simp [setKey, getKey, h, ih]

theorem getKey_setKey_ne {α : Type} (l : List (String × α)) (k k2 : String) (v : α)
    (h : k2 ≠ k) : getKey (setKey l k v) k2 = getKey l k2 := by
  have h2 : ¬k = k2 := fun he => h he.symm
  induction l with
  | nil => simp [setKey, getKey, h, h2]
  | cons p t ih =>
    by_cases hp : p.1 = k
    · simp [setKey, getKey, hp, h, h2]
    · by_cases hp2 : p.1 = k2 <;> simp [setKey, getKey, hp, hp2, h, h2, ih]

theorem hasKey_setKey {α : Type} (l : List (String × α)) (k : String) (v : α) :
    hasKey (setKey l k v) k = true := by
  induction l with
  | nil => simp [setKey, hasKey]
  | cons p t ih =>
    by_cases h : p.1 = k
    · simp [setKey, hasKey, h]
    · simp [setKey, hasKey, h, ih]

theorem setKey_eq_append_of_not_hasKey {α : Type} (l : List (String × α)) (k : String)
    (v : α) (h : hasKey l k = false) : setKey l k v = l ++ [(k, v)] := by
  induction l with
  | nil => simp [setKey]
  | cons p t ih =>
    by_cases hp : p.1 = k
    · simp [hasKey, hp] at h
    · simp [hasKey, hp] at h
      simp [setKey, hp, ih h]

theorem setKey_ne_of_not_hasKey {α : Type} (l : List (String × α)) (k : String)
    (v : α) (h : hasKey l k = false) : setKey l k v ≠ l := by
  rw [setKey_eq_append_of_not_hasKey l k v h]
  intro he
  have hlen := congrArg List.length he
  simp at hlen

theorem isEmpty_false_of_hasKey {α : Type} (l : List (String × α)) (k : String)
    (h : hasKey l k = true) : l.isEmpty = false := by
  cases l with
  | nil => simp [hasKey] at h
  | cons p t => simp

/-- The `kind=` argument of `start_as_current_span` as used by the two
wrappers. -/
inductive SpanKind where
  | client
  | server
deriving DecidableEq, Repr

/-- Span status: `unset` until `set_status(Status(StatusCode.ERROR))` is
called on the error path. -/
inductive SpanStatus where
  | unset
  | error
deriving DecidableEq, Repr

/-- An attribute value passed to `span.set_attribute`: a string, or Python
`None` (the default of `getattr(self, "target", None)`). -/
inductive AttrVal where
  | str (s : String)
  | pyNone
deriving DecidableEq, Repr

/-- The value `getattr(self, "target", None)` as a span attribute. -/
def serviceAttr : Option String → AttrVal
  | some s => AttrVal.str s
  | none => AttrVal.pyNone

/-- Record of one span as built by the explicit span API calls in a wrapper
body: name and kind from `start_as_current_span`, the explicit `context=`
argument (`none` when absent or `None`, modelling "no parent"; `τ` is the
trace-context type), the attributes set, the final status and the
exceptions recorded via `record_exception`. -/
structure SpanRec (τ : Type) where
  name : String
  kind : SpanKind
  ctx : Option τ
  attrs : List (String × AttrVal)
  status : SpanStatus
  exceptions : List PyErr
deriving DecidableEq, Repr

/-- The `ctxt` argument a caller passes to the wrapped client method:
Python `None`, a plain dict, an object exposing `to_dict` (such as
`oslo_context.context.RequestContext`; `r` is the outcome of calling it),
or any other object (`r` is the outcome of `dict(ctxt)`).  Non-`None`
objects are assumed truthy, as Python objects are by default. -/
inductive ClientCtxt (γ : Type) where
  | pyNone
  | dict (m : List (String × CVal γ))
  | objToDict (r : Except PyErr (List (String × CVal γ)))
  | objOther (r : Except PyErr (List (String × CVal γ)))
deriving Repr

/-- Python falsiness of the `ctxt` argument, as tested by
`if not ctxt:` in the client wrapper. -/
def ClientCtxt.isFalsy {γ : Type} : ClientCtxt γ → Bool
  | ClientCtxt.pyNone => true
  | ClientCtxt.dict m => m.isEmpty
  | ClientCtxt.objToDict _ => false
  | ClientCtxt.objOther _ => false

/-- The `_inject_trace_context` method: build a fresh carrier and call the
propagator's `inject` on it (`injectResult` is that collaborator call's
outcome, an opaque carrier of type `γ` or an exception), then normalize
`ctxt` — `ctxt.to_dict()` when the attribute exists, else `dict(ctxt or
\x7b\x7d)` — and store the carrier under the reserved key
`"_trace_context"`.  No step is guarded, so any failure escapes to the
caller. -/
def injectTraceContext {γ : Type} (injectResult : Except PyErr γ)
    (ctxt : ClientCtxt γ) : Except PyErr (List (String × CVal γ)) :=
  match injectResult with
  | Except.error e => Except.error e
  | Except.ok carrier =>
    match (match ctxt with
           | ClientCtxt.objToDict r => r
           | ClientCtxt.pyNone => Except.ok []
           | ClientCtxt.dict m => Except.ok m
           | ClientCtxt.objOther r => r) with
    | Except.error e => Except.error e
    | Except.ok d => Except.ok (setKey d "_trace_context" (CVal.carrier carrier))

/-- Observable outcome of one run of the client wrapper: the value
returned or exception raised, the spans produced by the wrapper's span
API calls, and the call context actually passed to the wrapped transport
method (`none` when the wrapped method was never invoked). -/
structure ClientOutcome (γ ρ : Type) where
  result : Except PyErr ρ
  spans : List (SpanRec Unit)
  forwarded : Option (List (String × CVal γ))
deriving Repr

/-- The wrapper produced by `_wrap_client_method(original_method, tracer,
method_name)`.  It opens a CLIENT span named
`"oslo_messaging.rpc." ++ methodName`, sets the three attributes, replaces
a falsy `ctxt` by the empty dict, injects the trace context (unguarded),
forwards the call with the updated context, and on an exception from the
wrapped method records it, sets ERROR status and re-raises.  `orig` is the
wrapped transport method (the collaborator), `method` the RPC method-name
argument of the call. -/
def clientWrapper {γ ρ : Type} (methodName : String) (target : Option String)
    (injectResult : Except PyErr γ)
    (orig : List (String × CVal γ) → String → Except PyErr ρ)
    (ctxt : ClientCtxt γ) (method : String) : ClientOutcome γ ρ :=
  let baseSpan : SpanRec Unit :=
    { name := "oslo_messaging.rpc." ++ methodName
      kind := SpanKind.client
      ctx := none
      attrs := [("rpc.method", AttrVal.str method),
                ("rpc.system", AttrVal.str "oslo_messaging"),
                ("rpc.service", serviceAttr target)]
      status := SpanStatus.unset
      exceptions := [] }
  let ctxt1 := if ctxt.isFalsy then ClientCtxt.dict [] else ctxt
  match injectTraceContext injectResult ctxt1 with
  | Except.error e =>
    { result := Except.error e, spans := [baseSpan], forwarded := none }
  | Except.ok d =>
    match orig d method with
    | Except.ok r =>
      { result := Except.ok r, spans := [baseSpan], forwarded := some d }
    | Except.error e =>
      { result := Except.error e
        spans := [{ baseSpan with status := SpanStatus.error, exceptions := [e] }]
        forwarded := some d }

/-- The `incoming.ctxt` value seen by the server wrapper, classified by
the attribute tests the code performs in order: an object with `to_dict`
(`r` the outcome of calling it), else an object with `get` — a plain dict
included — (`r` the outcome of `dict(incoming.ctxt)`), else Python `None`,
else any other object (`r` the outcome of `dict(incoming.ctxt)`). -/
inductive SCtxt (γ : Type) where
  | pyNone
  | withToDict (r : Except PyErr (List (String × CVal γ)))
  | withGet (r : Except PyErr (List (String × CVal γ)))
  | plain (r : Except PyErr (List (String × CVal γ)))
deriving Repr

/-- Membership test of the `except (TypeError, ValueError)` clause. -/
def isTypeOrValueError (e : PyErr) : Bool :=
  e.name = "TypeError" || e.name = "ValueError"

/-- The context-normalization block of the server wrapper: `to_dict` and
`get`-based conversions are unguarded, `None` leaves `ctxt_dict = None`,
and only the final plain `dict(...)` conversion is wrapped in
`try/except (TypeError, ValueError)` falling back to `None`.  The result
is the exception that escapes, or the value of `ctxt_dict` (`none` for
Python `None`). -/
def normalizeServerCtxt {γ : Type} :
    SCtxt γ → Except PyErr (Option (List (String × CVal γ)))
  | SCtxt.withToDict r => r.map some
  | SCtxt.withGet r => r.map some
  | SCtxt.pyNone => Except.ok none
  | SCtxt.plain r =>
    match r with
    | Except.ok d => Except.ok (some d)
    | Except.error e =>
      if isTypeOrValueError e then Except.ok none else Except.error e

/-- The `incoming` argument of `_process_incoming`: the `ctxt` and
`message` attributes, each `none` when the object does not expose that
attribute (so `hasattr` fails).  The message body is modelled as a string
dict, read only for its `"method"` entry. -/
structure Incoming (γ : Type) where
  ctxt : Option (SCtxt γ)
  message : Option (List (String × String))
deriving Repr

/-- Observable outcome of one run of the server wrapper: result or
exception, and the spans produced by its explicit span API calls. -/
structure ServerOutcome (τ ρ : Type) where
  result : Except PyErr ρ
  spans : List (SpanRec τ)
deriving Repr

/-- The wrapper produced by `_wrap_server_process_incoming(original_method,
tracer)`.  When `incoming` exposes both `ctxt` and `message` it normalizes
the context; if the normalized dict is truthy and holds the reserved key
`"_trace_context"` it calls the propagator's `extract` on that entry
(`extractFn`, a collaborator returning a trace context of type `τ`); it
then opens a SERVER span named after the message's `"method"` entry
(default `"unknown"`) with the extracted context as parent, sets the three
attributes, calls the original method with `incoming` unmodified, and on an
exception records it, sets ERROR status and re-raises.  When the shape
test fails it just calls the original method. -/
def serverWrapper {γ τ ρ : Type} (target : Option String)
    (extractFn : CVal γ → Except PyErr τ)
    (orig : Incoming γ → Except PyErr ρ)
    (incoming : Incoming γ) : ServerOutcome τ ρ :=
  match incoming.ctxt, incoming.message with
  | some sc, some msg =>
    match normalizeServerCtxt sc with
    | Except.error e => { result := Except.error e, spans := [] }
    | Except.ok od =>
      match (match od with
             | some d =>
               if !d.isEmpty && hasKey d "_trace_context" then
                 match getKey d "_trace_context" with
                 | some v => (extractFn v).map some
                 | none => Except.ok none
               else Except.ok none
             | none => (Except.ok none : Except PyErr (Option τ))) with
      | Except.error e => { result := Except.error e, spans := [] }
      | Except.ok ctx =>
        let method := (getKey msg "method").getD "unknown"
        let baseSpan : SpanRec τ :=
          { name := "oslo_messaging.rpc.server." ++ method
            kind := SpanKind.server
            ctx := ctx
            attrs := [("rpc.method", AttrVal.str method),
                      ("rpc.system", AttrVal.str "oslo_messaging"),
                      ("rpc.service", serviceAttr target)]
            status := SpanStatus.unset
            exceptions := [] }
        match orig incoming with
        | Except.ok r => { result := Except.ok r, spans := [baseSpan] }
        | Except.error e =>
          { result := Except.error e
            spans := [{ baseSpan with status := SpanStatus.error, exceptions := [e] }] }
  | _, _ => { result := orig incoming, spans := [] }

/-- A method attribute on one of the patched classes: either an original
method (tagged by an opaque identifier) or a wrapper produced by the
instrumentation, whose `functools.wraps` metadata points back at the
method it wrapped. -/
inductive Method where
  | orig (id : Nat)
  | wrapped (inner : Method)
deriving DecidableEq, Repr

/-- The mutable attribute state touched by `_instrument` /
`_uninstrument`: the `cast` and `call` slots of `_BaseCallContext`
(`none` when the attribute is absent, so the `hasattr` guard skips it),
whether `_inject_trace_context` is present, and the `_process_incoming`
slot of `RPCServer`. -/
structure ClassState where
  castSlot : Option Method
  callSlot : Option Method
  injectCapability : Bool
  processIncoming : Option Method
deriving DecidableEq, Repr

/-- Wrapping a method: the new attribute value records the previous one as
its wrapped original. -/
def wrapMethod (m : Method) : Method := Method.wrapped m

/-- Modelled from the spec: the `unwrap` helper
(`opentelemetry.instrumentation.utils.unwrap`, repository code not under
`src/`) restores an attribute to the wrapped function's recorded original
when one exists and otherwise leaves the attribute unchanged, matching the
spec's requirement that disable restore the pre-instrumentation method
exactly. -/
def unwrapAttr : Option Method → Option Method
  | some (Method.wrapped inner) => some inner
  | slot => slot

/-- The `_instrument_client` body: wrap each of `cast` and `call` when
present, then add the `_inject_trace_context` capability when it is not
already there. -/
def instrumentClient (s : ClassState) : ClassState :=
  let s1 := { s with castSlot := s.castSlot.map wrapMethod,
                     callSlot := s.callSlot.map wrapMethod }
  if s1.injectCapability then s1 else { s1 with injectCapability := true }

/-- The `_instrument_server` body: read `RPCServer._process_incoming`
(an `AttributeError` escapes when the attribute is absent, as only
`ImportError` is caught) and replace it by its wrapper. -/
def instrumentServer (s : ClassState) : Except PyErr ClassState :=
  match s.processIncoming with
  | none => Except.error { name := "AttributeError", msg := "_process_incoming" }
  | some m => Except.ok { s with processIncoming := some (wrapMethod m) }

/-- `_instrument`: client side first, then server side. -/
def instrumentAll (s : ClassState) : Except PyErr ClassState :=
  instrumentServer (instrumentClient s)

/-- The `_uninstrument_client` body: unwrap `cast` and `call` when
present, then delete `_inject_trace_context` when present. -/
def uninstrumentClient (s : ClassState) : ClassState :=
  { s with castSlot := unwrapAttr s.castSlot,
           callSlot := unwrapAttr s.callSlot,
           injectCapability := false }

/-- The `_uninstrument_server` body: unwrap `_process_incoming` when
present. -/
def uninstrumentServer (s : ClassState) : ClassState :=
  { s with processIncoming := unwrapAttr s.processIncoming }

/-- `_uninstrument`: client side first, then server side. -/
def uninstrumentAll (s : ClassState) : ClassState :=
  uninstrumentServer (uninstrumentClient s)

/-- Boolean test that `method` occurs as a contiguous run inside
`spanName`, used to state what "a span named for `method`" would
require. -/
def charsLead : List Char → List Char → Bool
  | [], _ => true
  | _ :: _, [] => false
  | a :: s, b :: t => a == b && charsLead s t

/-- Occurrence of `need` as a contiguous sublist of the second list. -/
def charsOccur (need : List Char) : List Char → Bool
  | [] => need.isEmpty
  | c :: t => charsLead need (c :: t) || charsOccur need t

/-- A span name mentions a method name when the method name occurs inside
it as a substring. -/
def namedFor (spanName method : String) : Bool :=
  charsOccur method.toList spanName.toList

theorem clientWrapper_forwarded_inv {γ ρ : Type} (methodName : String)
    (target : Option String) (injectResult : Except PyErr γ)
    (orig : List (String × CVal γ) → String → Except PyErr ρ)
    (ctxt : ClientCtxt γ) (method : String) (d : List (String × CVal γ))
    (h : (clientWrapper methodName target injectResult orig ctxt method).forwarded
      = some d) :
    injectTraceContext injectResult
      (if ctxt.isFalsy then ClientCtxt.dict [] else ctxt) = Except.ok d := by
  rcases hj : injectTraceContext injectResult
      (if ctxt.isFalsy then ClientCtxt.dict [] else ctxt) with e | d2
  · simp [clientWrapper, hj] at h
  · rcases ho : orig d2 method with e | r <;> simp_all [clientWrapper, hj, ho]

theorem injectTraceContext_ok_inv {γ : Type} {injectResult : Except PyErr γ}
    {ctxt : ClientCtxt γ} {d : List (String × CVal γ)}
    (h : injectTraceContext injectResult ctxt = Except.ok d) :
    ∃ c base, injectResult = Except.ok c ∧
      d = setKey base "_trace_context" (CVal.carrier c) := by
  rcases injectResult with e | c
  · simp [injectTraceContext] at h
  · cases ctxt with
    | pyNone =>
      refine ⟨c, [], rfl, ?_⟩
      simpa [injectTraceContext] using h.symm
    | dict m =>
      refine ⟨c, m, rfl, ?_⟩
      simpa [injectTraceContext] using h.symm
    | objToDict r =>
      rcases r with e | d0
      · simp [injectTraceContext] at h
      · refine ⟨c, d0, rfl, ?_⟩
        simpa [injectTraceContext] using h.symm
    | objOther r =>
      rcases r with e | d0
      · simp [injectTraceContext] at h
      · refine ⟨c, d0, rfl, ?_⟩
        simpa [injectTraceContext] using h.symm

theorem unwrapAttr_map_wrap (o : Option Method) :
    unwrapAttr (o.map wrapMethod) = o := by
  cases o <;> rfl

theorem clientWrapper_forwarded_eq {γ ρ : Type} (methodName : String)
    (target : Option String) (injectResult : Except PyErr γ)
    (orig : List (String × CVal γ) → String → Except PyErr ρ)
    (ctxt : ClientCtxt γ) (method : String) (d : List (String × CVal γ))
    (hinj : injectTraceContext injectResult
      (if ctxt.isFalsy then ClientCtxt.dict [] else ctxt) = Except.ok d) :
    (clientWrapper methodName target injectResult orig ctxt method).forwarded
      = some d := by
  rcases ho : orig d method with e | r <;> simp [clientWrapper, hinj, ho]

/-- Claim C1: when the wrapped client operation is invoked (with forwarded
context `d`) and raises `E`, the client wrapper re-raises exactly the same
exception value — no wrapping, no swallowing — and its single span records
`E` and carries ERROR status. -/
theorem C1_client_error_transparent {γ ρ : Type} (methodName : String)
    (target : Option String) (injectResult : Except PyErr γ)
    (orig : List (String × CVal γ) → String → Except PyErr ρ)
    (ctxt : ClientCtxt γ) (method : String)
    (d : List (String × CVal γ)) (e : PyErr)
    (hfwd : (clientWrapper methodName target injectResult orig ctxt method).forwarded
      = some d)
    (horig : orig d method = Except.error e) :
    (clientWrapper methodName target injectResult orig ctxt method).result
      = Except.error e ∧
    (clientWrapper methodName target injectResult orig ctxt method).spans
      = [{ name := "oslo_messaging.rpc." ++ methodName
           kind := SpanKind.client
           ctx := none
           attrs := [("rpc.method", AttrVal.str method),
                     ("rpc.system", AttrVal.str "oslo_messaging"),
                     ("rpc.service", serviceAttr target)]
           status := SpanStatus.error
           exceptions := [e] }] := by
  have hinj := clientWrapper_forwarded_inv methodName target injectResult orig
    ctxt method d hfwd
  constructor <;> simp [clientWrapper, hinj, horig]

/-- Witness for C1 at a concrete input: carrier type Nat, empty dict
context, wrapped operation raising TimeoutError. -/
theorem C1_client_error_transparent_witness :
    (clientWrapper "call" none (Except.ok (7 : Nat))
      (fun _ _ => (Except.error { name := "TimeoutError", msg := "t" } : Except PyErr String))
      (ClientCtxt.dict []) "get_status").result
      = Except.error { name := "TimeoutError", msg := "t" } ∧
    (clientWrapper "call" none (Except.ok (7 : Nat))
      (fun _ _ => (Except.error { name := "TimeoutError", msg := "t" } : Except PyErr String))
      (ClientCtxt.dict []) "get_status").spans
      = [{ name := "oslo_messaging.rpc." ++ "call"
           kind := SpanKind.client
           ctx := none
           attrs := [("rpc.method", AttrVal.str "get_status"),
                     ("rpc.system", AttrVal.str "oslo_messaging"),
                     ("rpc.service", serviceAttr none)]
           status := SpanStatus.error
           exceptions := [{ name := "TimeoutError", msg := "t" }] }] :=
  C1_client_error_transparent "call" none (Except.ok (7 : Nat))
    (fun _ _ => (Except.error { name := "TimeoutError", msg := "t" } : Except PyErr String))
    (ClientCtxt.dict []) "get_status"
    [("_trace_context", CVal.carrier 7)] { name := "TimeoutError", msg := "t" }
    rfl rfl

/-- Claim C3 counterexample: with the propagator's inject raising a
RuntimeError on an invoke with empty context, the wrapped transport
operation is never invoked (forwarded context is `none`) and the injection
error escapes to the caller — the RPC does not proceed, contradicting the
claim that the wrapper still forwards the call when injection fails. -/
theorem C3_inject_failure_blocks_call_cex :
    (clientWrapper "call" none
      (Except.error { name := "RuntimeError", msg := "inject failed" } : Except PyErr Nat)
      (fun _ _ => (Except.ok "OK" : Except PyErr String))
      (ClientCtxt.dict []) "get_status").forwarded = none ∧
    (clientWrapper "call" none
      (Except.error { name := "RuntimeError", msg := "inject failed" } : Except PyErr Nat)
      (fun _ _ => (Except.ok "OK" : Except PyErr String))
      (ClientCtxt.dict []) "get_status").result
      = Except.error { name := "RuntimeError", msg := "inject failed" } :=
  ⟨rfl, rfl⟩

/-- Claim C3 amended: the injection step of the client wrapper sits
outside the try block, so when trace-context injection fails (inject
raises, or context normalization raises) the wrapper does NOT forward the
call to the underlying transport operation and the propagation error
escapes to the caller. -/
theorem C3_inject_failure_propagates {γ ρ : Type} (methodName : String)
    (target : Option String) (injectResult : Except PyErr γ)
    (orig : List (String × CVal γ) → String → Except PyErr ρ)
    (ctxt : ClientCtxt γ) (method : String) (e : PyErr)
    (hinj : injectTraceContext injectResult
      (if ctxt.isFalsy then ClientCtxt.dict [] else ctxt) = Except.error e) :
    (clientWrapper methodName target injectResult orig ctxt method).result
      = Except.error e ∧
    (clientWrapper methodName target injectResult orig ctxt method).forwarded
      = none := by
  constructor <;> simp [clientWrapper, hinj]

/-- Witness for the amended C3 at a concrete input. -/
theorem C3_inject_failure_propagates_witness :
    (clientWrapper "cast" none
      (Except.error { name := "RuntimeError", msg := "boom" } : Except PyErr Nat)
      (fun _ _ => (Except.ok "OK" : Except PyErr String))
      ClientCtxt.pyNone "ping").result
      = Except.error { name := "RuntimeError", msg := "boom" } ∧
    (clientWrapper "cast" none
      (Except.error { name := "RuntimeError", msg := "boom" } : Except PyErr Nat)
      (fun _ _ => (Except.ok "OK" : Except PyErr String))
      ClientCtxt.pyNone "ping").forwarded = none :=
  C3_inject_failure_propagates "cast" none
    (Except.error { name := "RuntimeError", msg := "boom" } : Except PyErr Nat)
    (fun _ _ => (Except.ok "OK" : Except PyErr String))
    ClientCtxt.pyNone "ping" { name := "RuntimeError", msg := "boom" } rfl

/-- Claim C6 counterexample: in the success scenario — invoke via the
wrapped "call" method with empty context and RPC method "get_status",
wrapped operation returning "OK" — the single span produced has name
"oslo_messaging.rpc.call": it is named for the transport call kind, and
the string "get_status" does not occur in the span name, so the span is
not named for "get_status" as the claim states. -/
theorem C6_span_not_named_for_method_cex :
    ((clientWrapper "call" none (Except.ok (0 : Nat))
      (fun _ _ => (Except.ok "OK" : Except PyErr String))
      (ClientCtxt.dict []) "get_status").spans.map
        (fun sp => (sp.name, namedFor sp.name "get_status")))
      = [("oslo_messaging.rpc.call", false)] := by
  decide

/-- Claim C6 amended: on invoke with empty context and RPC method
"get_status" whose wrapped operation returns `r` at the forwarded context,
the wrapper returns `r` unchanged, produces exactly one CLIENT span — named
for the transport call kind ("oslo_messaging.rpc." followed by the wrapped
method's name), not for "get_status" — with attributes
rpc.method = "get_status" and rpc.system = "oslo_messaging" and status
unset, and the call context forwarded to the transport contains the
reserved carrier key. -/
theorem C6_client_success_scenario {γ ρ : Type} (methodName : String)
    (target : Option String) (c : γ)
    (orig : List (String × CVal γ) → String → Except PyErr ρ) (r : ρ)
    (horig : orig [("_trace_context", CVal.carrier c)] "get_status" = Except.ok r) :
    (clientWrapper methodName target (Except.ok c) orig
      (ClientCtxt.dict []) "get_status").result = Except.ok r ∧
    (clientWrapper methodName target (Except.ok c) orig
      (ClientCtxt.dict []) "get_status").spans
      = [{ name := "oslo_messaging.rpc." ++ methodName
           kind := SpanKind.client
           ctx := none
           attrs := [("rpc.method", AttrVal.str "get_status"),
                     ("rpc.system", AttrVal.str "oslo_messaging"),
                     ("rpc.service", serviceAttr target)]
           status := SpanStatus.unset
           exceptions := [] }] ∧
    (clientWrapper methodName target (Except.ok c) orig
      (ClientCtxt.dict []) "get_status").forwarded
      = some [("_trace_context", CVal.carrier c)] ∧
    hasKey [("_trace_context", CVal.carrier c)] "_trace_context" = true := by
  refine ⟨?_, ?_, ?_, by simp [hasKey]⟩ <;>
    simp [clientWrapper, injectTraceContext, setKey, horig]

/-- Witness for the amended C6 at a concrete input. -/
theorem C6_client_success_scenario_witness :
    (clientWrapper "call" (some "svc") (Except.ok (3 : Nat))
      (fun _ _ => (Except.ok "OK" : Except PyErr String))
      (ClientCtxt.dict []) "get_status").result = Except.ok "OK" ∧
    (clientWrapper "call" (some "svc") (Except.ok (3 : Nat))
      (fun _ _ => (Except.ok "OK" : Except PyErr String))
      (ClientCtxt.dict []) "get_status").spans
      = [{ name := "oslo_messaging.rpc." ++ "call"
           kind := SpanKind.client
           ctx := none
           attrs := [("rpc.method", AttrVal.str "get_status"),
                     ("rpc.system", AttrVal.str "oslo_messaging"),
                     ("rpc.service", serviceAttr (some "svc"))]
           status := SpanStatus.unset
           exceptions := [] }] ∧
    (clientWrapper "call" (some "svc") (Except.ok (3 : Nat))
      (fun _ _ => (Except.ok "OK" : Except PyErr String))
      (ClientCtxt.dict []) "get_status").forwarded
      = some [("_trace_context", CVal.carrier 3)] ∧
    hasKey [("_trace_context", (CVal.carrier 3 : CVal Nat))] "_trace_context" = true :=
  C6_client_success_scenario "call" (some "svc") (3 : Nat)
    (fun _ _ => (Except.ok "OK" : Except PyErr String)) "OK" rfl

/-- Claim C8: client-side injection builds a new mapping instead of
mutating the caller's context value: for a dict context `m` not already
holding the reserved key, the context passed to the transport is
`setKey m "_trace_context" carrier` — a value different from `m` — which
holds the carrier at the reserved key and agrees with `m` on every other
key, while the caller's value `m` itself is untouched (the code copies it
with `dict(ctxt)` before adding the key). -/
theorem C8_fresh_context_forwarded {γ ρ : Type} (methodName : String)
    (target : Option String) (c : γ)
    (orig : List (String × CVal γ) → String → Except PyErr ρ)
    (m : List (String × CVal γ)) (method : String)
    (hm : hasKey m "_trace_context" = false) :
    (clientWrapper methodName target (Except.ok c) orig
      (ClientCtxt.dict m) method).forwarded
      = some (setKey m "_trace_context" (CVal.carrier c)) ∧
    setKey m "_trace_context" (CVal.carrier c) ≠ m ∧
    getKey (setKey m "_trace_context" (CVal.carrier c)) "_trace_context"
      = some (CVal.carrier c) ∧
    ∀ k, k ≠ "_trace_context" →
      getKey (setKey m "_trace_context" (CVal.carrier c)) k = getKey m k := by
  refine ⟨?_, setKey_ne_of_not_hasKey m _ _ hm, getKey_setKey m _ _,
    fun k hk => getKey_setKey_ne m _ k _ hk⟩
  apply clientWrapper_forwarded_eq
  by_cases hmf : m.isEmpty
  · have hm0 : m = [] := by cases m <;> simp_all
    subst hm0
    simp [injectTraceContext, ClientCtxt.isFalsy]
  · simp [injectTraceContext, ClientCtxt.isFalsy, hmf]

/-- Witness for C8 at a concrete input: a one-entry dict context. -/
theorem C8_fresh_context_forwarded_witness :
    (clientWrapper "call" none (Except.ok (9 : Nat))
      (fun _ _ => (Except.ok "OK" : Except PyErr String))
      (ClientCtxt.dict [("user", CVal.str "alice")]) "ping").forwarded
      = some (setKey [("user", CVal.str "alice")] "_trace_context" (CVal.carrier 9)) ∧
    setKey [("user", CVal.str "alice")] "_trace_context" (CVal.carrier (9 : Nat))
      ≠ [("user", CVal.str "alice")] ∧
    getKey (setKey [("user", CVal.str "alice")] "_trace_context"
      (CVal.carrier (9 : Nat))) "_trace_context" = some (CVal.carrier 9) ∧
    ∀ k, k ≠ "_trace_context" →
      getKey (setKey [("user", CVal.str "alice")] "_trace_context"
        (CVal.carrier (9 : Nat))) k = getKey [("user", CVal.str "alice")] k :=
  C8_fresh_context_forwarded "call" none (9 : Nat)
    (fun _ _ => (Except.ok "OK" : Except PyErr String))
    [("user", CVal.str "alice")] "ping" rfl

/-- Claim C10: whatever the caller passes — Python None, a plain dict `m`,
or an object whose `to_dict` returns `d` — the context the client wrapper
forwards to the transport is always the plain dict obtained by converting
that value, with the reserved key added; the caller's original context
value (and its type) never reaches the transport once the bridge is
installed. -/
theorem C10_forwarded_always_plain_dict {γ ρ : Type} (methodName : String)
    (target : Option String) (c : γ)
    (orig : List (String × CVal γ) → String → Except PyErr ρ)
    (method : String) :
    (∀ m, (clientWrapper methodName target (Except.ok c) orig
        (ClientCtxt.dict m) method).forwarded
        = some (setKey m "_trace_context" (CVal.carrier c))) ∧
    (clientWrapper methodName target (Except.ok c) orig
        ClientCtxt.pyNone method).forwarded
      = some (setKey [] "_trace_context" (CVal.carrier c)) ∧
    (∀ d, (clientWrapper methodName target (Except.ok c) orig
        (ClientCtxt.objToDict (Except.ok d)) method).forwarded
        = some (setKey d "_trace_context" (CVal.carrier c))) := by
  refine ⟨fun m => ?_, ?_, fun d => ?_⟩ <;> apply clientWrapper_forwarded_eq
  · by_cases hmf : m.isEmpty
    · have hm0 : m = [] := by cases m <;> simp_all
      subst hm0
      simp [injectTraceContext, ClientCtxt.isFalsy]
    · simp [injectTraceContext, ClientCtxt.isFalsy, hmf]
  · simp [injectTraceContext, ClientCtxt.isFalsy]
  · simp [injectTraceContext, ClientCtxt.isFalsy]

/-- Claim C4: when the incoming message does not expose both `ctxt` and
`message`, the server wrapper calls the original handler with the
unmodified incoming message, returns its outcome unchanged, and performs
no span operation at all. -/
theorem C4_malformed_passthrough {γ τ ρ : Type} (target : Option String)
    (extractFn : CVal γ → Except PyErr τ)
    (orig : Incoming γ → Except PyErr ρ) (incoming : Incoming γ)
    (h : incoming.ctxt = none ∨ incoming.message = none) :
    (serverWrapper target extractFn orig incoming).result = orig incoming ∧
    (serverWrapper target extractFn orig incoming).spans = [] := by
  rcases incoming with ⟨oc, om⟩
  rcases oc with _ | sc <;> rcases om with _ | msg <;> simp_all [serverWrapper]

/-- Witness for C4 at a concrete input: an incoming object lacking the
`ctxt` attribute. -/
theorem C4_malformed_passthrough_witness :
    (serverWrapper none
      (fun v => match v with
        | CVal.carrier c => (Except.ok c : Except PyErr Nat)
        | CVal.str _ => Except.error { name := "ValueError", msg := "bad carrier" })
      (fun _ => (Except.ok "R" : Except PyErr String))
      { ctxt := none, message := some [("method", "ping")] }).result
      = (fun (_ : Incoming Nat) => (Except.ok "R" : Except PyErr String))
          { ctxt := none, message := some [("method", "ping")] } ∧
    (serverWrapper none
      (fun v => match v with
        | CVal.carrier c => (Except.ok c : Except PyErr Nat)
        | CVal.str _ => Except.error { name := "ValueError", msg := "bad carrier" })
      (fun _ => (Except.ok "R" : Except PyErr String))
      { ctxt := none, message := some [("method", "ping")] }).spans = [] :=
  C4_malformed_passthrough none
    (fun v => match v with
      | CVal.carrier c => (Except.ok c : Except PyErr Nat)
      | CVal.str _ => Except.error { name := "ValueError", msg := "bad carrier" })
    (fun _ => (Except.ok "R" : Except PyErr String))
    { ctxt := none, message := some [("method", "ping")] } (Or.inl rfl)

/-- Claim C5: when the incoming context normalizes to a mapping without
the reserved key "_trace_context", the server wrapper starts exactly one
SERVER-kind span with no parent context and does not raise because of the
missing key — the dispatch outcome is exactly the handler's outcome. -/
theorem C5_missing_key_parentless_span {γ τ ρ : Type} (target : Option String)
    (extractFn : CVal γ → Except PyErr τ)
    (orig : Incoming γ → Except PyErr ρ)
    (sc : SCtxt γ) (msg : List (String × String)) (d : List (String × CVal γ))
    (hnorm : normalizeServerCtxt sc = Except.ok (some d))
    (hkey : hasKey d "_trace_context" = false) :
    (serverWrapper target extractFn orig
        { ctxt := some sc, message := some msg }).spans.map
        (fun sp => (sp.ctx, sp.kind)) = [(none, SpanKind.server)] ∧
    (serverWrapper target extractFn orig
        { ctxt := some sc, message := some msg }).result
      = orig { ctxt := some sc, message := some msg } := by
  rcases ho : orig ⟨some sc, some msg⟩ with e | r <;>
    constructor <;> simp [serverWrapper, hnorm, hkey, ho]

/-- Witness for C5 at a concrete input: a get-bearing context that
converts to a dict without the reserved key. -/
theorem C5_missing_key_parentless_span_witness :
    (serverWrapper none
      (fun v => match v with
        | CVal.carrier c => (Except.ok c : Except PyErr Nat)
        | CVal.str _ => Except.error { name := "ValueError", msg := "bad carrier" })
      (fun _ => (Except.ok "R" : Except PyErr String))
      { ctxt := some (SCtxt.withGet (Except.ok [("user", CVal.str "alice")])),
        message := some [("method", "ping")] }).spans.map
        (fun sp => (sp.ctx, sp.kind)) = [(none, SpanKind.server)] ∧
    (serverWrapper none
      (fun v => match v with
        | CVal.carrier c => (Except.ok c : Except PyErr Nat)
        | CVal.str _ => Except.error { name := "ValueError", msg := "bad carrier" })
      (fun _ => (Except.ok "R" : Except PyErr String))
      { ctxt := some (SCtxt.withGet (Except.ok [("user", CVal.str "alice")])),
        message := some [("method", "ping")] }).result
      = (fun (_ : Incoming Nat) => (Except.ok "R" : Except PyErr String))
          { ctxt := some (SCtxt.withGet (Except.ok [("user", CVal.str "alice")])),
            message := some [("method", "ping")] } :=
  C5_missing_key_parentless_span none
    (fun v => match v with
      | CVal.carrier c => (Except.ok c : Except PyErr Nat)
      | CVal.str _ => Except.error { name := "ValueError", msg := "bad carrier" })
    (fun _ => (Except.ok "R" : Except PyErr String))
    (SCtxt.withGet (Except.ok [("user", CVal.str "alice")]))
    [("method", "ping")] [("user", CVal.str "alice")] rfl rfl

/-- Claim C2: carrier round-trip.  If the client wrapper, running with
active trace context `active` whose injection yields carrier
`inj active`, forwards context `d`, then `d` holds exactly that carrier
under the reserved key; and if the server wrapper receives a message whose
context normalizes to the very same `d`, the value it hands to the
propagator's extract is exactly that stored carrier, so — the propagator
being lossless on its own carriers (`hloss`) — the single SERVER span is
parented to the client's active trace context at injection time. -/
theorem C2_carrier_roundtrip {γ τ ρ ρ2 : Type} (active : τ) (inj : τ → γ)
    (extractFn : CVal γ → Except PyErr τ)
    (hloss : extractFn (CVal.carrier (inj active)) = Except.ok active)
    (methodName : String) (targetC targetS : Option String)
    (orig : List (String × CVal γ) → String → Except PyErr ρ)
    (ctxt : ClientCtxt γ) (method : String) (d : List (String × CVal γ))
    (hfwd : (clientWrapper methodName targetC (Except.ok (inj active)) orig
      ctxt method).forwarded = some d)
    (sc : SCtxt γ) (msg : List (String × String))
    (hnorm : normalizeServerCtxt sc = Except.ok (some d))
    (origS : Incoming γ → Except PyErr ρ2) :
    getKey d "_trace_context" = some (CVal.carrier (inj active)) ∧
    (serverWrapper targetS extractFn origS
        { ctxt := some sc, message := some msg }).spans.map
        (fun sp => (sp.ctx, sp.kind)) = [(some active, SpanKind.server)] := by
  have hinj := clientWrapper_forwarded_inv methodName targetC
    (Except.ok (inj active)) orig ctxt method d hfwd
  obtain ⟨c, base, hc, hd⟩ := injectTraceContext_ok_inv hinj
  have hceq : inj active = c := by injection hc
  subst hceq
  subst hd
  have hhas := hasKey_setKey base "_trace_context" (CVal.carrier (inj active))
  have hemp := isEmpty_false_of_hasKey _ _ hhas
  have hget := getKey_setKey base "_trace_context" (CVal.carrier (inj active))
  refine ⟨hget, ?_⟩
  rcases ho : origS ⟨some sc, some msg⟩ with e | r <;>
    simp [serverWrapper, hnorm, hemp, hhas, hget, hloss, ho, Except.map]

/-- Witness for C2 at a concrete input: Nat trace contexts, identity
injection, extraction reading the carrier back. -/
theorem C2_carrier_roundtrip_witness :
    getKey [("_trace_context", CVal.carrier (5 : Nat))] "_trace_context"
      = some (CVal.carrier 5) ∧
    (serverWrapper none
      (fun v => match v with
        | CVal.carrier c => (Except.ok c : Except PyErr Nat)
        | CVal.str _ => Except.error { name := "ValueError", msg := "bad carrier" })
      (fun _ => (Except.ok "R" : Except PyErr String))
      { ctxt := some (SCtxt.withGet
          (Except.ok [("_trace_context", CVal.carrier (5 : Nat))])),
        message := some [("method", "ping")] }).spans.map
        (fun sp => (sp.ctx, sp.kind)) = [(some 5, SpanKind.server)] :=
  C2_carrier_roundtrip (5 : Nat) (fun t => t)
    (fun v => match v with
      | CVal.carrier c => (Except.ok c : Except PyErr Nat)
      | CVal.str _ => Except.error { name := "ValueError", msg := "bad carrier" })
    rfl "call" none none
    (fun _ _ => (Except.ok "OK" : Except PyErr String))
    (ClientCtxt.dict []) "get_status"
    [("_trace_context", CVal.carrier 5)] rfl
    (SCtxt.withGet (Except.ok [("_trace_context", CVal.carrier 5)]))
    [("method", "ping")] rfl
    (fun _ => (Except.ok "R" : Except PyErr String))

/-- Claim C7 counterexample: an incoming message exposing `ctxt` and
`message` whose context has a `to_dict` that raises RuntimeError makes the
server wrapper itself raise — the dispatch fails with that conversion
error and no span is produced, contradicting the claim that server-side
context normalization never propagates an exception to the dispatch
caller. -/
theorem C7_todict_failure_raises_cex :
    (serverWrapper none
      (fun v => match v with
        | CVal.carrier c => (Except.ok c : Except PyErr Nat)
        | CVal.str _ => Except.error { name := "ValueError", msg := "bad carrier" })
      (fun _ => (Except.ok "R" : Except PyErr String))
      { ctxt := some (SCtxt.withToDict
          (Except.error { name := "RuntimeError", msg := "to_dict failed" })),
        message := some [("method", "ping")] }).result
      = Except.error { name := "RuntimeError", msg := "to_dict failed" } ∧
    (serverWrapper none
      (fun v => match v with
        | CVal.carrier c => (Except.ok c : Except PyErr Nat)
        | CVal.str _ => Except.error { name := "ValueError", msg := "bad carrier" })
      (fun _ => (Except.ok "R" : Except PyErr String))
      { ctxt := some (SCtxt.withToDict
          (Except.error { name := "RuntimeError", msg := "to_dict failed" })),
        message := some [("method", "ping")] }).spans = [] :=
  ⟨rfl, rfl⟩

/-- Claim C7 amended: only the final plain `dict(...)` conversion branch is
guarded, and only against TypeError and ValueError: a context with neither
`to_dict` nor `get` whose dict conversion raises such an error degrades to
"no context" and a parentless SERVER span, with the handler's outcome
returned unchanged; but a context whose `to_dict` raises propagates that
exception to the dispatch caller with no span produced. -/
theorem C7_normalization_policy {γ τ ρ : Type} (target : Option String)
    (extractFn : CVal γ → Except PyErr τ)
    (orig : Incoming γ → Except PyErr ρ)
    (msg : List (String × String)) (e : PyErr) :
    (isTypeOrValueError e = true →
      (serverWrapper target extractFn orig
          { ctxt := some (SCtxt.plain (Except.error e)),
            message := some msg }).spans.map (fun sp => (sp.ctx, sp.kind))
        = [(none, SpanKind.server)] ∧
      (serverWrapper target extractFn orig
          { ctxt := some (SCtxt.plain (Except.error e)),
            message := some msg }).result
        = orig { ctxt := some (SCtxt.plain (Except.error e)),
                 message := some msg }) ∧
    ((serverWrapper target extractFn orig
        { ctxt := some (SCtxt.withToDict (Except.error e)),
          message := some msg }).result = Except.error e ∧
     (serverWrapper target extractFn orig
        { ctxt := some (SCtxt.withToDict (Except.error e)),
          message := some msg }).spans = []) := by
  refine ⟨fun hte => ?_,
    by simp [serverWrapper, normalizeServerCtxt, Except.map],
    by simp [serverWrapper, normalizeServerCtxt, Except.map]⟩
  rcases ho : orig ⟨some (SCtxt.plain (Except.error e)), some msg⟩ with e2 | r <;>
    constructor <;> simp [serverWrapper, normalizeServerCtxt, hte, ho, Except.map]

/-- Witness for the amended C7 at a concrete input: a TypeError from the
plain conversion branch. -/
theorem C7_normalization_policy_witness :
    (isTypeOrValueError { name := "TypeError", msg := "not iterable" } = true →
      (serverWrapper none
          (fun v => match v with
            | CVal.carrier c => (Except.ok c : Except PyErr Nat)
            | CVal.str _ => Except.error { name := "ValueError", msg := "bad carrier" })
          (fun _ => (Except.ok "R" : Except PyErr String))
          { ctxt := some (SCtxt.plain
              (Except.error { name := "TypeError", msg := "not iterable" })),
            message := some [("method", "ping")] }).spans.map
          (fun sp => (sp.ctx, sp.kind)) = [(none, SpanKind.server)] ∧
      (serverWrapper none
          (fun v => match v with
            | CVal.carrier c => (Except.ok c : Except PyErr Nat)
            | CVal.str _ => Except.error { name := "ValueError", msg := "bad carrier" })
          (fun _ => (Except.ok "R" : Except PyErr String))
          { ctxt := some (SCtxt.plain
              (Except.error { name := "TypeError", msg := "not iterable" })),
            message := some [("method", "ping")] }).result
        = (fun (_ : Incoming Nat) => (Except.ok "R" : Except PyErr String))
            { ctxt := some (SCtxt.plain
                (Except.error { name := "TypeError", msg := "not iterable" })),
              message := some [("method", "ping")] }) ∧
    ((serverWrapper none
        (fun v => match v with
          | CVal.carrier c => (Except.ok c : Except PyErr Nat)
          | CVal.str _ => Except.error { name := "ValueError", msg := "bad carrier" })
        (fun _ => (Except.ok "R" : Except PyErr String))
        { ctxt := some (SCtxt.withToDict
            (Except.error { name := "TypeError", msg := "not iterable" })),
          message := some [("method", "ping")] }).result
      = Except.error { name := "TypeError", msg := "not iterable" } ∧
     (serverWrapper none
        (fun v => match v with
          | CVal.carrier c => (Except.ok c : Except PyErr Nat)
          | CVal.str _ => Except.error { name := "ValueError", msg := "bad carrier" })
        (fun _ => (Except.ok "R" : Except PyErr String))
        { ctxt := some (SCtxt.withToDict
            (Except.error { name := "TypeError", msg := "not iterable" })),
          message := some [("method", "ping")] }).spans = []) :=
  C7_normalization_policy none
    (fun v => match v with
      | CVal.carrier c => (Except.ok c : Except PyErr Nat)
      | CVal.str _ => Except.error { name := "ValueError", msg := "bad carrier" })
    (fun _ => (Except.ok "R" : Except PyErr String))
    [("method", "ping")] { name := "TypeError", msg := "not iterable" }

/-- Claim C9: instrumenting and then uninstrumenting restores the exact
pre-instrumentation class state — the original `cast`, `call` and
`_process_incoming` methods are back in place and the bridge-added
`_inject_trace_context` capability is removed — provided the capability
was absent before instrumentation, as it is on the pristine classes.
Since the restored methods are the original values, subsequent calls run
the original code with no residual span creation. -/
theorem C9_instrument_uninstrument_roundtrip (s s2 : ClassState)
    (hcap : s.injectCapability = false)
    (hinst : instrumentAll s = Except.ok s2) :
    uninstrumentAll s2 = s := by
  rcases s with ⟨oc, oca, cap, opi⟩
  simp only at hcap
  subst hcap
  cases opi with
  | none =>
    simp [instrumentAll, instrumentClient, instrumentServer] at hinst
  | some m =>
    simp [instrumentAll, instrumentClient, instrumentServer] at hinst
    rw [← hinst]
    cases oc <;> cases oca <;>
      simp [uninstrumentAll, uninstrumentClient, uninstrumentServer,
        unwrapAttr, wrapMethod]

/-- Witness for C9 at a concrete input: a pristine class state holding
three original methods. -/
theorem C9_instrument_uninstrument_roundtrip_witness :
    uninstrumentAll
      { castSlot := some (Method.wrapped (Method.orig 1))
        callSlot := some (Method.wrapped (Method.orig 2))
        injectCapability := true
        processIncoming := some (Method.wrapped (Method.orig 3)) }
      = { castSlot := some (Method.orig 1)
          callSlot := some (Method.orig 2)
          injectCapability := false
          processIncoming := some (Method.orig 3) } :=
  C9_instrument_uninstrument_roundtrip
    { castSlot := some (Method.orig 1)
      callSlot := some (Method.orig 2)
      injectCapability := false
      processIncoming := some (Method.orig 3) }
    { castSlot := some (Method.wrapped (Method.orig 1))
      callSlot := some (Method.wrapped (Method.orig 2))
      injectCapability := true
      processIncoming := some (Method.wrapped (Method.orig 3)) }
    rfl rfl

end OsloMessaging
